import Mathlib

/-!
Verification of the weather-reactive 3D environment engine of this
repository: a shallow embedding of the `WeatherEffects` class
(weather-to-effect mapping, per-frame animation, disposal), of the
`Field` asset pipeline (texture post-processing, scene initialization,
terrain displacement) and of the animation-loop lifecycle.

Modelling conventions: JavaScript numbers are modelled as exact
rationals; `Math.random()` is modelled as an arbitrary sequence
`r : Nat -> Rat` of values consumed left to right, with the next unread
index stored in the engine state; the three.js scene is modelled as the
list of effect sub-graphs the engine has installed, each tagged with a
fresh identifier and its effect kind, plus the single `scene.fog` slot.
A thrown JavaScript exception is modelled as a `Bool` flag paired with
the state at the throw point.
-/

namespace DT

/-- JS `s.toLowerCase()` on a string represented as a list of characters. -/
def toLowerStr (s : List Char) : List Char := s.map Char.toLower

/-- JS `s.includes(sub)`: substring containment test. -/
def includesStr (s sub : List Char) : Bool := decide (sub <:+: s)

/-- The literal 'rain' checked by `updateRain`, `updateClouds`, `updateLighting`. -/
def rainLit : List Char := ['r', 'a', 'i', 'n']

/-- The literal 'cloud' checked by `updateClouds` and `updateLighting`. -/
def cloudLit : List Char := ['c', 'l', 'o', 'u', 'd']

/-- The `WeatherState` interface of WeatherEffects.tsx. -/
structure WeatherState where
  conditions : List Char
  temperature : ℚ
  windSpeed : ℚ
  humidity : ℚ
  windDirection : ℚ
deriving DecidableEq

/-- `conditions.toLowerCase().includes('rain')`. -/
def isRainy (w : WeatherState) : Bool := includesStr (toLowerStr w.conditions) rainLit

/-- `conditions.toLowerCase().includes('cloud')`. -/
def isCloudy (w : WeatherState) : Bool := includesStr (toLowerStr w.conditions) cloudLit

/-- The effect kinds whose instances `WeatherEffects` installs as scene children. -/
inductive EffectKind
  | clouds
  | rain
  | windLines
  | windIndicator
deriving DecidableEq

structure Vec3 where
  x : ℚ
  y : ℚ
  z : ℚ
deriving DecidableEq

/-- One cloud billboard of the cloud group (scale after the random additions). -/
structure Cloud where
  scale : Vec3
  pos : Vec3
deriving DecidableEq

/-- The `THREE.Group` held in `this.clouds` (`posX` is the group drift offset). -/
structure CloudsInst where
  id : ℕ
  items : List Cloud
  posX : ℚ
deriving DecidableEq

/-- The `THREE.Points` held in `this.rainParticles` (the position buffer). -/
structure RainInst where
  id : ℕ
  positions : List Vec3
deriving DecidableEq

/-- One line segment of the wind-streak buffer (start and end points). -/
structure WindSeg where
  segStart : Vec3
  segEnd : Vec3
deriving DecidableEq

/-- The `THREE.LineSegments` held in `this.windLines`. -/
structure WindLinesInst where
  id : ℕ
  segs : List WindSeg
deriving DecidableEq

/-- The wind-direction indicator group: the arrow rotation is stored as the
degree value `rotZdeg` whose radian conversion the code assigns to
`windArrow.rotation.z`, together with the arrow scale vector. -/
structure IndicatorInst where
  id : ℕ
  rotZdeg : ℚ
  scale : Vec3
deriving DecidableEq

/-- The weather-owned scene children: identifier and effect kind per sub-graph. -/
abbrev Scene := List (ℕ × EffectKind)

/-- `scene.remove(obj)`: removal of a sub-graph by identity. -/
def removeObj (p : ℕ × EffectKind) (s : Scene) : Scene :=
  s.filter (fun q => decide (q ≠ p))

/-- The mutable state of a `WeatherEffects` object together with the parts of
the scene it owns.  `fogHandle` is `this.fog`, `sceneFog` is `scene.fog`;
`nextId` generates fresh identifiers for newly installed sub-graphs and
`randIdx` is the index of the next unread `Math.random()` value. -/
structure Engine where
  scene : Scene
  fogHandle : Option ℚ
  sceneFog : Option ℚ
  clouds : Option CloudsInst
  rainParticles : Option RainInst
  windLines : Option WindLinesInst
  windIndicator : Option IndicatorInst
  weatherState : Option WeatherState
  ambientIntensity : ℚ
  dirIntensity : ℚ
  dirColor : ℕ
  nextId : ℕ
  randIdx : ℕ
deriving DecidableEq

/-- A freshly constructed `WeatherEffects` on the scene built by `Field`
(initial fog density 0.002, ambient 0.6, directional 0.8 warm-tinted). -/
def initEngine : Engine where
  scene := []
  fogHandle := none
  sceneFog := some 0.002
  clouds := none
  rainParticles := none
  windLines := none
  windIndicator := none
  weatherState := none
  ambientIntensity := 0.6
  dirIntensity := 0.8
  dirColor := 0xfff4e6
  nextId := 0
  randIdx := 0

/-- The rain particle fill loop of `updateRain`: each particle consumes three
random values, in the order x, y, z. -/
def mkRainPositions (r : ℕ → ℚ) : ℕ → ℕ → List Vec3 × ℕ
  | idx, 0 => ([], idx)
  | idx, n + 1 =>
    let p : Vec3 := ⟨r idx * 100 - 50, r (idx + 1) * 50, r (idx + 2) * 100 - 50⟩
    let rest := mkRainPositions r (idx + 3) n
    (p :: rest.1, rest.2)

/-- One cloud of the `updateClouds` loop: consumes seven random values, in the
order size, position x, y, z, then the three scale additions. -/
def mkCloud (r : ℕ → ℚ) (idx : ℕ) : Cloud :=
  let size := 2 + r idx * 3
  { scale := ⟨size + r (idx + 4) * 2, size * 0.5 + r (idx + 5) * 1, size * 0.5 + r (idx + 6) * 2⟩
    pos := ⟨r (idx + 1) * 100 - 50, 10 + r (idx + 2) * 10, r (idx + 3) * 100 - 50⟩ }

def mkClouds (r : ℕ → ℚ) : ℕ → ℕ → List Cloud × ℕ
  | idx, 0 => ([], idx)
  | idx, n + 1 =>
    let rest := mkClouds r (idx + 7) n
    (mkCloud r idx :: rest.1, rest.2)

/-- One wind streak of the `updateWind` loop: consumes six random values, in
the order x, y, z, then the three end-point offsets. -/
def mkWindSeg (r : ℕ → ℚ) (ws : ℚ) (idx : ℕ) : WindSeg :=
  let x := r idx * 100 - 50
  let y := 0.5 + r (idx + 1) * 2
  let z := r (idx + 2) * 100 - 50
  { segStart := ⟨x, y, z⟩
    segEnd := ⟨x - ws * (0.5 + r (idx + 3)), y - ws * 0.2 * r (idx + 4),
               z + ws * (0.5 - r (idx + 5))⟩ }

def mkWindSegs (r : ℕ → ℚ) (ws : ℚ) : ℕ → ℕ → List WindSeg × ℕ
  | idx, 0 => ([], idx)
  | idx, n + 1 =>
    let rest := mkWindSegs r ws (idx + 6) n
    (mkWindSeg r ws idx :: rest.1, rest.2)

/-- `updateFog`: the previous fog slot is cleared and a fresh `FogExp2` with
density `0.001 + humidity / 100 * 0.002` is installed in both `this.fog` and
`scene.fog` (the transient null assignment is absorbed into the net effect). -/
def updateFog (w : WeatherState) (e : Engine) : Engine :=
  let d : ℚ := 0.001 + w.humidity / 100 * 0.002
  { e with fogHandle := some d, sceneFog := some d }

/-- `updateLighting`: dim cool preset on rain or cloud conditions, bright warm
preset otherwise (the lights added by `Field.setupLighting` are present). -/
def updateLighting (w : WeatherState) (e : Engine) : Engine :=
  let dim := isRainy w || isCloudy w
  { e with
    ambientIntensity := if dim then 0.4 else 0.6
    dirIntensity := if dim then 0.5 else 0.8
    dirColor := if dim then 0xccccff else 0xfff4e6 }

/-- The cloud count expression of `updateClouds`. -/
def cloudCountQ (w : WeatherState) : ℚ :=
  if isRainy w then 15 + w.windSpeed * 2
  else if isCloudy w then 10 + w.windSpeed
  else 5

/-- Number of iterations of a JS loop running `for i = 0; i < q; i++`. -/
def loopIters (q : ℚ) : ℕ := if q ≤ 0 then 0 else (⌈q⌉).toNat

/-- `updateClouds`: the previous cloud group is removed from the scene, and a
new group with `cloudCountQ` clouds is built and installed. -/
def updateClouds (r : ℕ → ℚ) (w : WeatherState) (e : Engine) : Engine :=
  let s1 := match e.clouds with
    | some c => removeObj (c.id, .clouds) e.scene
    | none => e.scene
  let made := mkClouds r e.randIdx (loopIters (cloudCountQ w))
  { e with
    scene := s1 ++ [(e.nextId, .clouds)]
    clouds := some { id := e.nextId, items := made.1, posX := 0 }
    nextId := e.nextId + 1
    randIdx := made.2 }

/-- `Math.floor(5000 * (humidity / 100))`. -/
def rainCountZ (h : ℚ) : ℤ := ⌊(5000 : ℚ) * (h / 100)⌋

/-- The removal prefix of `updateRain`: the previous rain instance, if any, is
removed from the scene and the handle nulled. -/
def rainRemoved (e : Engine) : Engine :=
  match e.rainParticles with
  | some ri => { e with scene := removeObj (ri.id, .rain) e.scene, rainParticles := none }
  | none => e

/-- `updateRain`.  The returned flag records the `RangeError` thrown by
`new Float32Array(particleCount * 3)` when the particle count is negative;
the paired state is the object state at normal return or at the throw. -/
def updateRain (r : ℕ → ℚ) (w : WeatherState) (e : Engine) : Engine × Bool :=
  let e1 := rainRemoved e
  if !isRainy w then (e1, false)
  else
    let n := rainCountZ w.humidity
    if n < 0 then (e1, true)
    else
      let made := mkRainPositions r e1.randIdx n.toNat
      ({ e1 with
          scene := e1.scene ++ [(e1.nextId, .rain)]
          rainParticles := some { id := e1.nextId, positions := made.1 }
          nextId := e1.nextId + 1
          randIdx := made.2 }, false)

/-- The removal prefix of `updateWind`. -/
def windRemoved (e : Engine) : Engine :=
  match e.windLines with
  | some wl => { e with scene := removeObj (wl.id, .windLines) e.scene, windLines := none }
  | none => e

/-- `updateWind`: removal, then 50 fresh streaks when `windSpeed > 3`. -/
def updateWind (r : ℕ → ℚ) (w : WeatherState) (e : Engine) : Engine :=
  let e1 := windRemoved e
  if w.windSpeed ≤ 3 then e1
  else
    let made := mkWindSegs r w.windSpeed e1.randIdx 50
    { e1 with
      scene := e1.scene ++ [(e1.nextId, .windLines)]
      windLines := some { id := e1.nextId, segs := made.1 }
      nextId := e1.nextId + 1
      randIdx := made.2 }

/-- `createWindDirectionIndicator`: a fresh indicator group is installed; the
arrow starts unrotated about z with unit scale. -/
def createWindDirectionIndicator (e : Engine) : Engine :=
  { e with
    scene := e.scene ++ [(e.nextId, .windIndicator)]
    windIndicator := some { id := e.nextId, rotZdeg := 0, scale := ⟨1, 1, 1⟩ }
    nextId := e.nextId + 1 }

/-- `updateWindDirection`: rotates the arrow to `degToRad(windDirection - 180)`
and scales it uniformly by `1 + windSpeed / 10`. -/
def updateWindDirection (w : WeatherState) (e : Engine) : Engine :=
  match e.windIndicator with
  | none => e
  | some ind =>
    let sc := 1 + w.windSpeed / 10
    { e with
      windIndicator := some { ind with rotZdeg := w.windDirection - 180, scale := ⟨sc, sc, sc⟩ } }

/-- The wind-indicator block at the end of `updateEffects`: lazily created the
first time `windSpeed > 0`, re-oriented on every update while present, and
removed when `windSpeed` is no longer positive. -/
def updateIndicatorStep (w : WeatherState) (e : Engine) : Engine :=
  if 0 < w.windSpeed then
    let e1 := if e.windIndicator.isNone then createWindDirectionIndicator e else e
    updateWindDirection w e1
  else
    match e.windIndicator with
    | some ind =>
      { e with scene := removeObj (ind.id, .windIndicator) e.scene, windIndicator := none }
    | none => e

/-- `updateEffects`: guarded on a stored weather state, then fog, lighting,
clouds, rain, wind streaks and the indicator block in source order.  The flag
records a propagated `updateRain` exception, which aborts the remaining
steps. -/
def updateEffects (r : ℕ → ℚ) (e : Engine) : Engine × Bool :=
  match e.weatherState with
  | none => (e, false)
  | some w =>
    let e2 := updateClouds r w (updateLighting w (updateFog w e))
    let p := updateRain r w e2
    if p.2 then p
    else (updateIndicatorStep w (updateWind r w p.1), false)

/-- `updateWeather`: stores the new state, then re-derives every effect. -/
def updateWeather (r : ℕ → ℚ) (w : WeatherState) (e : Engine) : Engine × Bool :=
  updateEffects r { e with weatherState := some w }

/-- A sequence of `updateWeather` calls applied in order (states at throw
points are carried forward, matching the surviving object state). -/
def applyUpdates (r : ℕ → ℚ) (ws : List WeatherState) (e : Engine) : Engine :=
  ws.foldl (fun acc w => (updateWeather r w acc).1) e

/-- The rain branch of `animate`: fall by `10 * delta`, and on crossing the
ground plane teleport to a fresh random position (y, then x, then z). -/
def stepRain (r : ℕ → ℚ) (delta : ℚ) : ℕ → List Vec3 → List Vec3 × ℕ
  | idx, [] => ([], idx)
  | idx, p :: ps =>
    let y1 := p.y - 10 * delta
    if y1 < 0 then
      let q : Vec3 := ⟨r (idx + 1) * 100 - 50, 20 + r idx * 30, r (idx + 2) * 100 - 50⟩
      let rest := stepRain r delta (idx + 3) ps
      (q :: rest.1, rest.2)
    else
      let rest := stepRain r delta idx ps
      (⟨p.x, y1, p.z⟩ :: rest.1, rest.2)

/-- The wind-streak branch of `animate`: both endpoints translate by
`-windSpeed * delta * 0.2` in x; a streak whose start crosses -60 is reset to
a fresh segment on the windward edge, consuming five random values. -/
def stepWind (r : ℕ → ℚ) (ws delta : ℚ) : ℕ → List WindSeg → List WindSeg × ℕ
  | idx, [] => ([], idx)
  | idx, sg :: sgs =>
    let sx := sg.segStart.x - ws * delta * 0.2
    let ex := sg.segEnd.x - ws * delta * 0.2
    if sx < -60 then
      let y := 0.5 + r idx * 2
      let z := r (idx + 1) * 100 - 50
      let fresh : WindSeg :=
        { segStart := ⟨60, y, z⟩
          segEnd := ⟨60 - ws * (0.5 + r (idx + 2)), y - ws * 0.2 * r (idx + 3),
                     z + ws * (0.5 - r (idx + 4))⟩ }
      let rest := stepWind r ws delta (idx + 5) sgs
      (fresh :: rest.1, rest.2)
    else
      let rest := stepWind r ws delta idx sgs
      ({ segStart := { sg.segStart with x := sx }
         segEnd := { sg.segEnd with x := ex } } :: rest.1, rest.2)

/-- `animate(delta)`: each of the three branches is guarded on both the effect
handle and the stored weather state being present. -/
def animate (r : ℕ → ℚ) (delta : ℚ) (e : Engine) : Engine :=
  match e.weatherState with
  | none => e
  | some w =>
    let e1 := match e.clouds with
      | some c =>
        let px := c.posX + w.windSpeed * delta * 0.05
        let px := if 60 < px then -60 else px
        { e with clouds := some { c with posX := px } }
      | none => e
    let e2 := match e1.rainParticles with
      | some ri =>
        let res := stepRain r delta e1.randIdx ri.positions
        { e1 with rainParticles := some { ri with positions := res.1 }, randIdx := res.2 }
      | none => e1
    match e2.windLines with
    | some wl =>
      let res := stepWind r w.windSpeed delta e2.randIdx wl.segs
      { e2 with windLines := some { wl with segs := res.1 }, randIdx := res.2 }
    | none => e2

/-- `dispose`: every live effect sub-graph is removed from the scene and
`scene.fog` cleared; the handles themselves are not nulled by the source. -/
def dispose (e : Engine) : Engine :=
  let s1 := match e.clouds with
    | some c => removeObj (c.id, .clouds) e.scene
    | none => e.scene
  let s2 := match e.rainParticles with
    | some ri => removeObj (ri.id, .rain) s1
    | none => s1
  let s3 := match e.windLines with
    | some wl => removeObj (wl.id, .windLines) s2
    | none => s2
  let s4 := match e.windIndicator with
    | some ind => removeObj (ind.id, .windIndicator) s3
    | none => s3
  let sf := if e.fogHandle.isSome then none else e.sceneFog
  { e with scene := s4, sceneFog := sf }

/-- The scene children of one effect kind. -/
def kindEntries (k : EffectKind) (s : Scene) : Scene :=
  s.filter (fun q => decide (q.2 = k))

/-- Number of live scene instances of one effect kind. -/
def kindCount (k : EffectKind) (s : Scene) : ℕ := (kindEntries k s).length

/-- The scene children an optional handle accounts for. -/
def expectEntries : Option ℕ → EffectKind → Scene
  | some i, k => [(i, k)]
  | none, _ => []

/-- Handle consistency: for each effect kind the scene holds exactly the
children of the engine's (optional) handle of that kind. -/
def Inv (e : Engine) : Prop :=
  kindEntries .clouds e.scene = expectEntries (e.clouds.map CloudsInst.id) .clouds ∧
  kindEntries .rain e.scene = expectEntries (e.rainParticles.map RainInst.id) .rain ∧
  kindEntries .windLines e.scene = expectEntries (e.windLines.map WindLinesInst.id) .windLines ∧
  kindEntries .windIndicator e.scene
    = expectEntries (e.windIndicator.map IndicatorInst.id) .windIndicator

instance (e : Engine) : Decidable (Inv e) := by
  unfold Inv
  infer_instance

/-! ### The Field asset pipeline: texture post-processing -/

/-- The seven texture roles of the `TextureMaps` interface in Field.tsx. -/
inductive TexRole
  | soilColor
  | soilNormal
  | soilRoughness
  | soilDisplacement
  | grassColor
  | grassNormal
  | grassRoughness
deriving DecidableEq

/-- Wrap mode of a three.js texture. -/
inductive WrapMode
  | clampToEdge
  | repeatWrapping
deriving DecidableEq

/-- Color-space tag of a three.js texture. -/
inductive ColorSpaceTag
  | noColorSpace
  | srgb
  | linearSRGB
deriving DecidableEq

structure Texture where
  wrapS : WrapMode
  wrapT : WrapMode
  repeatX : ℚ
  repeatY : ℚ
  colorSpace : ColorSpaceTag
deriving DecidableEq

/-- Whether a role is a color-role texture (a diffuse color map). -/
def isColorRole : TexRole → Bool
  | .soilColor => true
  | .grassColor => true
  | _ => false

/-- Whether a role is a normal map (whose samples must stay linear). -/
def isNormalMap : TexRole → Bool
  | .soilNormal => true
  | .grassNormal => true
  | _ => false

/-- The texture post-processing loop of `loadTextures`: wrap mode and tiling
repeat are set on every texture; the color space is tagged sRGB on every
texture other than the one compared by identity to `grassNormal`. -/
def configureTexture (role : TexRole) (t : Texture) : Texture :=
  let t1 := { t with
    wrapS := WrapMode.repeatWrapping
    wrapT := WrapMode.repeatWrapping
    repeatX := 4
    repeatY := 4 }
  if role ≠ TexRole.grassNormal then { t1 with colorSpace := ColorSpaceTag.srgb } else t1

/-! ### The Field asset pipeline: scene initialization -/

/-- The loading-message phases of Field.tsx in the order they are set. -/
inductive Phase
  | loadingAssets
  | loadingTextures
  | creatingTerrain
  | creatingGrass
  | loadingPlants
  | plantingCrops
  | failedToLoad
deriving DecidableEq

/-- The host-visible outcome of `initializeScene`: the React loading flag, the
last loading message, and which scene parts were built. -/
structure InitResult where
  loading : Bool
  phase : Phase
  terrainBuilt : Bool
  grassBuilt : Bool
  plantCount : ℕ
deriving DecidableEq

/-- All seven texture roles, in the order of the `Promise.all` array. -/
def allTexRoles : List TexRole :=
  [.soilColor, .soilNormal, .soilRoughness, .soilDisplacement,
   .grassColor, .grassNormal, .grassRoughness]

/-- `Promise.all` over the seven texture loads succeeds iff every load does. -/
def texAllOk (ok : TexRole → Bool) : Bool := allTexRoles.all ok

/-- `loadPlantModels`: each model load has a `catch` returning null, and nulls
are filtered out, so a failed model yields an empty plant list, not an
error. -/
def loadPlantModels (plantOk : Bool) : List Unit :=
  if plantOk then [()] else []

/-- `initializeScene`: a texture failure is caught, freezes the loading flag
and sets the failure message before terrain or grass is built; a plant-model
failure is swallowed upstream, so the scene still completes with
`setLoading(false)` — `createPlantField` merely returns early on an empty
plant list (3 rows times 5 columns of instances otherwise). -/
def initializeScene (texOk : TexRole → Bool) (plantOk : Bool) : InitResult :=
  if texAllOk texOk then
    let plants := loadPlantModels plantOk
    if plants.isEmpty then
      { loading := false, phase := .loadingPlants,
        terrainBuilt := true, grassBuilt := true, plantCount := 0 }
    else
      { loading := false, phase := .plantingCrops,
        terrainBuilt := true, grassBuilt := true, plantCount := 3 * 5 }
  else
    { loading := true, phase := .failedToLoad,
      terrainBuilt := false, grassBuilt := false, plantCount := 0 }

/-! ### The terrain generator -/

/-- The three target row coordinates of `createTerrain`. -/
def rowYPositions : List ℚ := [-10, 0, 10]

/-- The row bandwidth of `createTerrain`. -/
def rowWidth : ℚ := 3

/-- The row-bump pass over one vertex: for each target row within the
bandwidth, `0.3 * exp(-((y - rowY) / rowWidth)^4)` is added.  The
transcendental `Math.exp` is an explicit parameter `f`. -/
def rowBump (f : ℚ → ℚ) (y : ℚ) : ℚ :=
  rowYPositions.foldl
    (fun acc rowY =>
      if |y - rowY| < rowWidth then acc + 0.3 * f (-(((y - rowY) / rowWidth) ^ 4)) else acc) 0

/-- The two-octave noise pass over one vertex, with `Math.sin` and `Math.cos`
as explicit parameters. -/
def terrainNoise (sn cs : ℚ → ℚ) (x y : ℚ) : ℚ :=
  0.05 * (sn (x * 0.1) * cs (y * 0.1) + 0.03 * (sn (x * 0.3) * cs (y * 0.3)))

/-- Total height added to the vertex at planar position x, y. -/
def displacementAt (f sn cs : ℚ → ℚ) (x y : ℚ) : ℚ :=
  rowBump f y + terrainNoise sn cs x y

/-- The per-vertex displacement of the `createTerrain` vertex loop. -/
def displaceVertex (f sn cs : ℚ → ℚ) (v : Vec3) : Vec3 :=
  ⟨v.x, v.y, v.z + displacementAt f sn cs v.x v.y⟩

/-- The whole `createTerrain` vertex loop over the position buffer. -/
def createTerrainPositions (f sn cs : ℚ → ℚ) (vs : List Vec3) : List Vec3 :=
  vs.map (displaceVertex f sn cs)

/-- Modelled from the spec's wording of the row-bump pass: the sum, over the
target rows within bandwidth `rowWidth` of the vertex, of
`0.3 * exp(-(delta / rowWidth)^4)` with `delta` the signed distance. -/
def specRowBump (f : ℚ → ℚ) (y : ℚ) : ℚ :=
  ((rowYPositions.filter (fun rowY => decide (|y - rowY| < rowWidth))).map
    (fun rowY => 0.3 * f (-(((y - rowY) / rowWidth) ^ 4)))).sum

/-- The side-effect steps of `createTerrain`, in source order. -/
inductive TerrainStep
  | displaceVertices
  | computeVertexNormals
  | rotateFlat
  | enableReceiveShadow
  | addToScene
deriving DecidableEq, BEq

def createTerrainSteps : List TerrainStep :=
  [.displaceVertices, .computeVertexNormals, .rotateFlat, .enableReceiveShadow, .addToScene]

def terrainStepPos (t : TerrainStep) : ℕ :=
  createTerrainSteps.findIdx (fun s => s == t)

/-! ### The animation loop and teardown of Field.tsx -/

/-- The loop-and-teardown state of the Field component: whether a
`requestAnimationFrame` callback is pending, whether the resize listener is
attached, whether the renderer was disposed, and the frame/mixer clock. -/
structure LoopState where
  rafScheduled : Bool
  resizeListenerAttached : Bool
  rendererDisposed : Bool
  framesRendered : ℕ
  mixerTime : ℚ
deriving DecidableEq

/-- The state right after mounting: `animate()` has been called once, which
schedules the recurring callback. -/
def mountedLoop : LoopState :=
  { rafScheduled := true, resizeListenerAttached := true, rendererDisposed := false,
    framesRendered := 0, mixerTime := 0 }

/-- One invocation of the `animate` callback of Field.tsx: it re-schedules
itself via `requestAnimationFrame(animate)`, advances every mixer by the
elapsed delta, updates the controls and renders the frame. -/
def stepFrame (delta : ℚ) (s : LoopState) : LoopState :=
  { s with
    rafScheduled := true
    mixerTime := s.mixerTime + delta
    framesRendered := s.framesRendered + 1 }

/-- The `useEffect` cleanup of Field.tsx: it removes the resize listener,
removes the renderer DOM element and disposes the renderer, geometries and
materials.  No `cancelAnimationFrame` call appears anywhere in the source and
no frame id is stored, so the pending callback is left untouched. -/
def cleanup (s : LoopState) : LoopState :=
  { s with resizeListenerAttached := false, rendererDisposed := true }

/-! ### Derived state summaries and concrete labels -/

/-- The visible summary of the engine state: per effect kind, whether an
instance exists and its weather-derived parameters (sizes, counts, fog
density, lighting preset, arrow orientation), abstracting over the randomly
drawn positions and over instance identity. -/
structure Visible where
  fogDensity : Option ℚ
  ambient : ℚ
  dirI : ℚ
  dirC : ℕ
  cloudCount : Option ℕ
  rainCount : Option ℕ
  windLineCount : Option ℕ
  indicator : Option (ℚ × Vec3)
deriving DecidableEq

def visible (e : Engine) : Visible where
  fogDensity := e.fogHandle
  ambient := e.ambientIntensity
  dirI := e.dirIntensity
  dirC := e.dirColor
  cloudCount := e.clouds.map (fun c => c.items.length)
  rainCount := e.rainParticles.map (fun ri => ri.positions.length)
  windLineCount := e.windLines.map (fun wl => wl.segs.length)
  indicator := e.windIndicator.map (fun i => (i.rotZdeg, i.scale))

/-- The visible summary determined by a weather state alone. -/
def visibleOf (w : WeatherState) : Visible where
  fogDensity := some (0.001 + w.humidity / 100 * 0.002)
  ambient := if isRainy w || isCloudy w then 0.4 else 0.6
  dirI := if isRainy w || isCloudy w then 0.5 else 0.8
  dirC := if isRainy w || isCloudy w then 0xccccff else 0xfff4e6
  cloudCount := some (loopIters (cloudCountQ w))
  rainCount := if isRainy w then some (rainCountZ w.humidity).toNat else none
  windLineCount := if w.windSpeed ≤ 3 then none else some 50
  indicator :=
    if 0 < w.windSpeed then
      some (w.windDirection - 180,
        ⟨1 + w.windSpeed / 10, 1 + w.windSpeed / 10, 1 + w.windSpeed / 10⟩)
    else none

/-- The condition label 'Rain' as delivered by the weather collaborator. -/
def rainLabel : List Char := ['R', 'a', 'i', 'n']

/-- The condition label 'Clear' as delivered by the weather collaborator. -/
def clearLit : List Char := ['C', 'l', 'e', 'a', 'r']

/-- A texture as produced by the loaders before post-processing: clamped
wrap, unit repeat, untagged color space. -/
def defaultLoadedTexture : Texture where
  wrapS := .clampToEdge
  wrapT := .clampToEdge
  repeatX := 1
  repeatY := 1
  colorSpace := .noColorSpace

/-! ### Helper lemmas: field bookkeeping of the update pipeline -/

variable {r : ℕ → ℚ} {w : WeatherState} {e : Engine}

@[simp] lemma rainRemoved_clouds (e : Engine) : (rainRemoved e).clouds = e.clouds := by
  unfold rainRemoved; rcases e.rainParticles <;> rfl

@[simp] lemma rainRemoved_windLines (e : Engine) : (rainRemoved e).windLines = e.windLines := by
  unfold rainRemoved; rcases e.rainParticles <;> rfl

@[simp] lemma rainRemoved_windIndicator (e : Engine) :
    (rainRemoved e).windIndicator = e.windIndicator := by
  unfold rainRemoved; rcases e.rainParticles <;> rfl

@[simp] lemma rainRemoved_weatherState (e : Engine) :
    (rainRemoved e).weatherState = e.weatherState := by
  unfold rainRemoved; rcases e.rainParticles <;> rfl

@[simp] lemma rainRemoved_fogHandle (e : Engine) : (rainRemoved e).fogHandle = e.fogHandle := by
  unfold rainRemoved; rcases e.rainParticles <;> rfl

@[simp] lemma rainRemoved_ambient (e : Engine) :
    (rainRemoved e).ambientIntensity = e.ambientIntensity := by
  unfold rainRemoved; rcases e.rainParticles <;> rfl

@[simp] lemma rainRemoved_dirIntensity (e : Engine) :
    (rainRemoved e).dirIntensity = e.dirIntensity := by
  unfold rainRemoved; rcases e.rainParticles <;> rfl

@[simp] lemma rainRemoved_dirColor (e : Engine) : (rainRemoved e).dirColor = e.dirColor := by
  unfold rainRemoved; rcases e.rainParticles <;> rfl

@[simp] lemma rainRemoved_nextId (e : Engine) : (rainRemoved e).nextId = e.nextId := by
  unfold rainRemoved; rcases e.rainParticles <;> rfl

@[simp] lemma rainRemoved_randIdx (e : Engine) : (rainRemoved e).randIdx = e.randIdx := by
  unfold rainRemoved; rcases e.rainParticles <;> rfl

@[simp] lemma rainRemoved_rainParticles (e : Engine) : (rainRemoved e).rainParticles = none := by
  unfold rainRemoved; rcases h : e.rainParticles <;> simp [h]

@[simp] lemma windRemoved_clouds (e : Engine) : (windRemoved e).clouds = e.clouds := by
  unfold windRemoved; rcases e.windLines <;> rfl

@[simp] lemma windRemoved_rainParticles (e : Engine) :
    (windRemoved e).rainParticles = e.rainParticles := by
  unfold windRemoved; rcases e.windLines <;> rfl

@[simp] lemma windRemoved_windIndicator (e : Engine) :
    (windRemoved e).windIndicator = e.windIndicator := by
  unfold windRemoved; rcases e.windLines <;> rfl

@[simp] lemma windRemoved_weatherState (e : Engine) :
    (windRemoved e).weatherState = e.weatherState := by
  unfold windRemoved; rcases e.windLines <;> rfl

@[simp] lemma windRemoved_fogHandle (e : Engine) : (windRemoved e).fogHandle = e.fogHandle := by
  unfold windRemoved; rcases e.windLines <;> rfl

@[simp] lemma windRemoved_ambient (e : Engine) :
    (windRemoved e).ambientIntensity = e.ambientIntensity := by
  unfold windRemoved; rcases e.windLines <;> rfl

@[simp] lemma windRemoved_dirIntensity (e : Engine) :
    (windRemoved e).dirIntensity = e.dirIntensity := by
  unfold windRemoved; rcases e.windLines <;> rfl

@[simp] lemma windRemoved_dirColor (e : Engine) : (windRemoved e).dirColor = e.dirColor := by
  unfold windRemoved; rcases e.windLines <;> rfl

@[simp] lemma windRemoved_nextId (e : Engine) : (windRemoved e).nextId = e.nextId := by
  unfold windRemoved; rcases e.windLines <;> rfl

@[simp] lemma windRemoved_randIdx (e : Engine) : (windRemoved e).randIdx = e.randIdx := by
  unfold windRemoved; rcases e.windLines <;> rfl

@[simp] lemma windRemoved_windLines (e : Engine) : (windRemoved e).windLines = none := by
  unfold windRemoved; rcases h : e.windLines <;> simp [h]

@[simp] lemma updateRain_snd (r : ℕ → ℚ) (w : WeatherState) (e : Engine) :
    (updateRain r w e).2 = (isRainy w && decide (rainCountZ w.humidity < 0)) := by
  unfold updateRain
  by_cases h : isRainy w
  · by_cases hn : rainCountZ w.humidity < 0 <;> simp [h, hn]
  · simp [h]

@[simp] lemma updateRain_fst_clouds (r : ℕ → ℚ) (w : WeatherState) (e : Engine) :
    ((updateRain r w e).1).clouds = e.clouds := by
  unfold updateRain
  by_cases h : isRainy w
  · by_cases hn : rainCountZ w.humidity < 0 <;> simp [h, hn]
  · simp [h]

@[simp] lemma updateRain_fst_windLines (r : ℕ → ℚ) (w : WeatherState) (e : Engine) :
    ((updateRain r w e).1).windLines = e.windLines := by
  unfold updateRain
  by_cases h : isRainy w
  · by_cases hn : rainCountZ w.humidity < 0 <;> simp [h, hn]
  · simp [h]

@[simp] lemma updateRain_fst_windIndicator (r : ℕ → ℚ) (w : WeatherState) (e : Engine) :
    ((updateRain r w e).1).windIndicator = e.windIndicator := by
  unfold updateRain
  by_cases h : isRainy w
  · by_cases hn : rainCountZ w.humidity < 0 <;> simp [h, hn]
  · simp [h]

@[simp] lemma updateRain_fst_weatherState (r : ℕ → ℚ) (w : WeatherState) (e : Engine) :
    ((updateRain r w e).1).weatherState = e.weatherState := by
  unfold updateRain
  by_cases h : isRainy w
  · by_cases hn : rainCountZ w.humidity < 0 <;> simp [h, hn]
  · simp [h]

@[simp] lemma updateRain_fst_fogHandle (r : ℕ → ℚ) (w : WeatherState) (e : Engine) :
    ((updateRain r w e).1).fogHandle = e.fogHandle := by
  unfold updateRain
  by_cases h : isRainy w
  · by_cases hn : rainCountZ w.humidity < 0 <;> simp [h, hn]
  · simp [h]

@[simp] lemma updateRain_fst_ambient (r : ℕ → ℚ) (w : WeatherState) (e : Engine) :
    ((updateRain r w e).1).ambientIntensity = e.ambientIntensity := by
  unfold updateRain
  by_cases h : isRainy w
  · by_cases hn : rainCountZ w.humidity < 0 <;> simp [h, hn]
  · simp [h]

@[simp] lemma updateRain_fst_dirIntensity (r : ℕ → ℚ) (w : WeatherState) (e : Engine) :
    ((updateRain r w e).1).dirIntensity = e.dirIntensity := by
  unfold updateRain
  by_cases h : isRainy w
  · by_cases hn : rainCountZ w.humidity < 0 <;> simp [h, hn]
  · simp [h]

@[simp] lemma updateRain_fst_dirColor (r : ℕ → ℚ) (w : WeatherState) (e : Engine) :
    ((updateRain r w e).1).dirColor = e.dirColor := by
  unfold updateRain
  by_cases h : isRainy w
  · by_cases hn : rainCountZ w.humidity < 0 <;> simp [h, hn]
  · simp [h]

lemma updateRain_fst_rainParticles (r : ℕ → ℚ) (w : WeatherState) (e : Engine) :
    ((updateRain r w e).1).rainParticles =
      if isRainy w = true ∧ ¬ rainCountZ w.humidity < 0 then
        some ⟨e.nextId, (mkRainPositions r e.randIdx (rainCountZ w.humidity).toNat).1⟩
      else none := by
  unfold updateRain
  by_cases h : isRainy w
  · by_cases hn : rainCountZ w.humidity < 0 <;> simp [h, hn]
  · simp [h]

@[simp] lemma updateFog_scene (w : WeatherState) (e : Engine) :
    (updateFog w e).scene = e.scene := rfl

@[simp] lemma updateFog_clouds (w : WeatherState) (e : Engine) :
    (updateFog w e).clouds = e.clouds := rfl

@[simp] lemma updateFog_rainParticles (w : WeatherState) (e : Engine) :
    (updateFog w e).rainParticles = e.rainParticles := rfl

@[simp] lemma updateFog_windLines (w : WeatherState) (e : Engine) :
    (updateFog w e).windLines = e.windLines := rfl

@[simp] lemma updateFog_windIndicator (w : WeatherState) (e : Engine) :
    (updateFog w e).windIndicator = e.windIndicator := rfl

@[simp] lemma updateFog_weatherState (w : WeatherState) (e : Engine) :
    (updateFog w e).weatherState = e.weatherState := rfl

@[simp] lemma updateFog_nextId (w : WeatherState) (e : Engine) :
    (updateFog w e).nextId = e.nextId := rfl

@[simp] lemma updateFog_randIdx (w : WeatherState) (e : Engine) :
    (updateFog w e).randIdx = e.randIdx := rfl

@[simp] lemma updateFog_fogHandle (w : WeatherState) (e : Engine) :
    (updateFog w e).fogHandle = some (0.001 + w.humidity / 100 * 0.002) := rfl

@[simp] lemma updateLighting_scene (w : WeatherState) (e : Engine) :
    (updateLighting w e).scene = e.scene := rfl

@[simp] lemma updateLighting_clouds (w : WeatherState) (e : Engine) :
    (updateLighting w e).clouds = e.clouds := rfl

@[simp] lemma updateLighting_rainParticles (w : WeatherState) (e : Engine) :
    (updateLighting w e).rainParticles = e.rainParticles := rfl

@[simp] lemma updateLighting_windLines (w : WeatherState) (e : Engine) :
    (updateLighting w e).windLines = e.windLines := rfl

@[simp] lemma updateLighting_windIndicator (w : WeatherState) (e : Engine) :
    (updateLighting w e).windIndicator = e.windIndicator := rfl

@[simp] lemma updateLighting_weatherState (w : WeatherState) (e : Engine) :
    (updateLighting w e).weatherState = e.weatherState := rfl

@[simp] lemma updateLighting_fogHandle (w : WeatherState) (e : Engine) :
    (updateLighting w e).fogHandle = e.fogHandle := rfl

@[simp] lemma updateLighting_nextId (w : WeatherState) (e : Engine) :
    (updateLighting w e).nextId = e.nextId := rfl

@[simp] lemma updateLighting_randIdx (w : WeatherState) (e : Engine) :
    (updateLighting w e).randIdx = e.randIdx := rfl

@[simp] lemma updateLighting_ambient (w : WeatherState) (e : Engine) :
    (updateLighting w e).ambientIntensity = if isRainy w || isCloudy w then 0.4 else 0.6 := rfl

@[simp] lemma updateLighting_dirIntensity (w : WeatherState) (e : Engine) :
    (updateLighting w e).dirIntensity = if isRainy w || isCloudy w then 0.5 else 0.8 := rfl

@[simp] lemma updateLighting_dirColor (w : WeatherState) (e : Engine) :
    (updateLighting w e).dirColor = if isRainy w || isCloudy w then 0xccccff else 0xfff4e6 := rfl

@[simp] lemma updateClouds_rainParticles (r : ℕ → ℚ) (w : WeatherState) (e : Engine) :
    (updateClouds r w e).rainParticles = e.rainParticles := rfl

@[simp] lemma updateClouds_windLines (r : ℕ → ℚ) (w : WeatherState) (e : Engine) :
    (updateClouds r w e).windLines = e.windLines := rfl

@[simp] lemma updateClouds_windIndicator (r : ℕ → ℚ) (w : WeatherState) (e : Engine) :
    (updateClouds r w e).windIndicator = e.windIndicator := rfl

@[simp] lemma updateClouds_weatherState (r : ℕ → ℚ) (w : WeatherState) (e : Engine) :
    (updateClouds r w e).weatherState = e.weatherState := rfl

@[simp] lemma updateClouds_fogHandle (r : ℕ → ℚ) (w : WeatherState) (e : Engine) :
    (updateClouds r w e).fogHandle = e.fogHandle := rfl

@[simp] lemma updateClouds_ambient (r : ℕ → ℚ) (w : WeatherState) (e : Engine) :
    (updateClouds r w e).ambientIntensity = e.ambientIntensity := rfl

@[simp] lemma updateClouds_dirIntensity (r : ℕ → ℚ) (w : WeatherState) (e : Engine) :
    (updateClouds r w e).dirIntensity = e.dirIntensity := rfl

@[simp] lemma updateClouds_dirColor (r : ℕ → ℚ) (w : WeatherState) (e : Engine) :
    (updateClouds r w e).dirColor = e.dirColor := rfl

@[simp] lemma updateClouds_nextId (r : ℕ → ℚ) (w : WeatherState) (e : Engine) :
    (updateClouds r w e).nextId = e.nextId + 1 := rfl

@[simp] lemma updateClouds_clouds (r : ℕ → ℚ) (w : WeatherState) (e : Engine) :
    (updateClouds r w e).clouds
      = some ⟨e.nextId, (mkClouds r e.randIdx (loopIters (cloudCountQ w))).1, 0⟩ := rfl

@[simp] lemma updateWind_clouds (r : ℕ → ℚ) (w : WeatherState) (e : Engine) :
    (updateWind r w e).clouds = e.clouds := by
  unfold updateWind; split_ifs <;> simp

@[simp] lemma updateWind_rainParticles (r : ℕ → ℚ) (w : WeatherState) (e : Engine) :
    (updateWind r w e).rainParticles = e.rainParticles := by
  unfold updateWind; split_ifs <;> simp

@[simp] lemma updateWind_windIndicator (r : ℕ → ℚ) (w : WeatherState) (e : Engine) :
    (updateWind r w e).windIndicator = e.windIndicator := by
  unfold updateWind; split_ifs <;> simp

@[simp] lemma updateWind_weatherState (r : ℕ → ℚ) (w : WeatherState) (e : Engine) :
    (updateWind r w e).weatherState = e.weatherState := by
  unfold updateWind; split_ifs <;> simp

@[simp] lemma updateWind_fogHandle (r : ℕ → ℚ) (w : WeatherState) (e : Engine) :
    (updateWind r w e).fogHandle = e.fogHandle := by
  unfold updateWind; split_ifs <;> simp

@[simp] lemma updateWind_ambient (r : ℕ → ℚ) (w : WeatherState) (e : Engine) :
    (updateWind r w e).ambientIntensity = e.ambientIntensity := by
  unfold updateWind; split_ifs <;> simp

@[simp] lemma updateWind_dirIntensity (r : ℕ → ℚ) (w : WeatherState) (e : Engine) :
    (updateWind r w e).dirIntensity = e.dirIntensity := by
  unfold updateWind; split_ifs <;> simp

@[simp] lemma updateWind_dirColor (r : ℕ → ℚ) (w : WeatherState) (e : Engine) :
    (updateWind r w e).dirColor = e.dirColor := by
  unfold updateWind; split_ifs <;> simp

lemma updateWind_windLines (r : ℕ → ℚ) (w : WeatherState) (e : Engine) :
    (updateWind r w e).windLines =
      if w.windSpeed ≤ 3 then none
      else some ⟨e.nextId, (mkWindSegs r w.windSpeed e.randIdx 50).1⟩ := by
  unfold updateWind; split_ifs <;> simp

@[simp] lemma uis_clouds (w : WeatherState) (e : Engine) :
    (updateIndicatorStep w e).clouds = e.clouds := by
  unfold updateIndicatorStep createWindDirectionIndicator updateWindDirection
  by_cases hw : 0 < w.windSpeed <;> rcases h : e.windIndicator <;> simp [h, hw]

@[simp] lemma uis_rainParticles (w : WeatherState) (e : Engine) :
    (updateIndicatorStep w e).rainParticles = e.rainParticles := by
  unfold updateIndicatorStep createWindDirectionIndicator updateWindDirection
  by_cases hw : 0 < w.windSpeed <;> rcases h : e.windIndicator <;> simp [h, hw]

@[simp] lemma uis_windLines (w : WeatherState) (e : Engine) :
    (updateIndicatorStep w e).windLines = e.windLines := by
  unfold updateIndicatorStep createWindDirectionIndicator updateWindDirection
  by_cases hw : 0 < w.windSpeed <;> rcases h : e.windIndicator <;> simp [h, hw]

@[simp] lemma uis_weatherState (w : WeatherState) (e : Engine) :
    (updateIndicatorStep w e).weatherState = e.weatherState := by
  unfold updateIndicatorStep createWindDirectionIndicator updateWindDirection
  by_cases hw : 0 < w.windSpeed <;> rcases h : e.windIndicator <;> simp [h, hw]

@[simp] lemma uis_fogHandle (w : WeatherState) (e : Engine) :
    (updateIndicatorStep w e).fogHandle = e.fogHandle := by
  unfold updateIndicatorStep createWindDirectionIndicator updateWindDirection
  by_cases hw : 0 < w.windSpeed <;> rcases h : e.windIndicator <;> simp [h, hw]

@[simp] lemma uis_ambient (w : WeatherState) (e : Engine) :
    (updateIndicatorStep w e).ambientIntensity = e.ambientIntensity := by
  unfold updateIndicatorStep createWindDirectionIndicator updateWindDirection
  by_cases hw : 0 < w.windSpeed <;> rcases h : e.windIndicator <;> simp [h, hw]

@[simp] lemma uis_dirIntensity (w : WeatherState) (e : Engine) :
    (updateIndicatorStep w e).dirIntensity = e.dirIntensity := by
  unfold updateIndicatorStep createWindDirectionIndicator updateWindDirection
  by_cases hw : 0 < w.windSpeed <;> rcases h : e.windIndicator <;> simp [h, hw]

@[simp] lemma uis_dirColor (w : WeatherState) (e : Engine) :
    (updateIndicatorStep w e).dirColor = e.dirColor := by
  unfold updateIndicatorStep createWindDirectionIndicator updateWindDirection
  by_cases hw : 0 < w.windSpeed <;> rcases h : e.windIndicator <;> simp [h, hw]

@[simp] lemma uis_randIdx (w : WeatherState) (e : Engine) :
    (updateIndicatorStep w e).randIdx = e.randIdx := by
  unfold updateIndicatorStep createWindDirectionIndicator updateWindDirection
  by_cases hw : 0 < w.windSpeed <;> rcases h : e.windIndicator <;> simp [h, hw]

lemma uis_windIndicator (w : WeatherState) (e : Engine) :
    (updateIndicatorStep w e).windIndicator =
      if 0 < w.windSpeed then
        some { id := (e.windIndicator.map IndicatorInst.id).getD e.nextId,
               rotZdeg := w.windDirection - 180,
               scale := ⟨1 + w.windSpeed / 10, 1 + w.windSpeed / 10, 1 + w.windSpeed / 10⟩ }
      else none := by
  unfold updateIndicatorStep createWindDirectionIndicator updateWindDirection
  by_cases hw : 0 < w.windSpeed <;> rcases h : e.windIndicator <;> simp [h, hw]

lemma mkRainPositions_length (r : ℕ → ℚ) (idx n : ℕ) :
    ((mkRainPositions r idx n).1).length = n := by
  induction n generalizing idx with
  | zero => rfl
  | succ m ih => simp [mkRainPositions, ih]

lemma mkWindSegs_length (r : ℕ → ℚ) (ws : ℚ) (idx n : ℕ) :
    ((mkWindSegs r ws idx n).1).length = n := by
  induction n generalizing idx with
  | zero => rfl
  | succ m ih => simp [mkWindSegs, ih]

lemma mkClouds_length (r : ℕ → ℚ) (idx n : ℕ) :
    ((mkClouds r idx n).1).length = n := by
  induction n generalizing idx with
  | zero => rfl
  | succ m ih => simp [mkClouds, ih]

/-! ### Helper lemmas: the update pipeline as a composition -/

lemma updateWeather_eq (r : ℕ → ℚ) (w : WeatherState) (e : Engine) :
    updateWeather r w e =
      if (updateRain r w (updateClouds r w (updateLighting w
            (updateFog w { e with weatherState := some w })))).2 then
        updateRain r w (updateClouds r w (updateLighting w
          (updateFog w { e with weatherState := some w })))
      else
        (updateIndicatorStep w (updateWind r w
          (updateRain r w (updateClouds r w (updateLighting w
            (updateFog w { e with weatherState := some w })))).1), false) := rfl

lemma ite_snd_pair {c : Prop} [Decidable c] (p : Engine × Bool) (q : Engine) :
    (if c then p else (q, false)).2 = if c then p.2 else false := by
  split_ifs <;> rfl

lemma updateWeather_snd (r : ℕ → ℚ) (w : WeatherState) (e : Engine) :
    (updateWeather r w e).2 = (isRainy w && decide (rainCountZ w.humidity < 0)) := by
  rw [updateWeather_eq, ite_snd_pair]
  rcases hb : (updateRain r w (updateClouds r w (updateLighting w
      (updateFog w { e with weatherState := some w })))).2
  · rw [updateRain_snd] at hb
    simp [hb]
  · rw [updateRain_snd] at hb
    simp [hb]

lemma rainCountZ_neg_iff (h : ℚ) : rainCountZ h < 0 ↔ h < 0 := by
  unfold rainCountZ
  rw [Int.floor_lt]
  push_cast
  constructor
  · intro hx
    linarith
  · intro hx
    linarith

lemma updateWeather_snd' (r : ℕ → ℚ) (w : WeatherState) (e : Engine) :
    (updateWeather r w e).2 = (isRainy w && decide (w.humidity < 0)) := by
  rw [updateWeather_snd]
  by_cases hh : w.humidity < 0
  · have h2 := (rainCountZ_neg_iff w.humidity).mpr hh
    simp [hh, h2]
  · have h2 : ¬ rainCountZ w.humidity < 0 := fun hc => hh ((rainCountZ_neg_iff _).mp hc)
    simp [hh, h2]

lemma updateWeather_fst_of_ok (r : ℕ → ℚ) (w : WeatherState) (e : Engine)
    (h : (updateWeather r w e).2 = false) :
    (updateWeather r w e).1 =
      updateIndicatorStep w (updateWind r w
        (updateRain r w (updateClouds r w (updateLighting w
          (updateFog w { e with weatherState := some w })))).1) := by
  rw [updateWeather_eq] at h ⊢
  rcases hb : (updateRain r w (updateClouds r w (updateLighting w
      (updateFog w { e with weatherState := some w })))).2
  · simp [hb]
  · rw [hb] at h
    rw [if_pos rfl, updateRain_snd] at h
    rw [updateRain_snd] at hb
    rw [hb] at h
    exact absurd h (by simp)

/-! ### Helper lemmas: scene bookkeeping and the handle invariant -/

lemma kindEntries_append (k : EffectKind) (s t : Scene) :
    kindEntries k (s ++ t) = kindEntries k s ++ kindEntries k t := by
  simp [kindEntries]

lemma kindEntries_removeObj (p : ℕ × EffectKind) (k : EffectKind) (s : Scene) :
    kindEntries k (removeObj p s) = removeObj p (kindEntries k s) := by
  unfold kindEntries removeObj
  rw [List.filter_filter, List.filter_filter]
  exact List.filter_congr (fun a _ => Bool.and_comm _ _)

lemma kindEntries_single_self (i : ℕ) (k : EffectKind) :
    kindEntries k [(i, k)] = [(i, k)] := by
  simp [kindEntries]

lemma kindEntries_single_ne {k k' : EffectKind} (i : ℕ) (h : ¬ k = k') :
    kindEntries k' [(i, k)] = [] := by
  simp [kindEntries, h]

lemma removeObj_cancel_single (i : ℕ) (k : EffectKind) :
    removeObj (i, k) [(i, k)] = [] := by
  simp [removeObj]

lemma kindEntries_drop_single {k : EffectKind} {i : ℕ} {s : Scene}
    (h : kindEntries k s = [(i, k)]) :
    kindEntries k (removeObj (i, k) s) = [] := by
  rw [kindEntries_removeObj, h, removeObj_cancel_single]

lemma kindEntries_removeObj_ne {k k' : EffectKind} (i : ℕ) (s : Scene) (hne : ¬ k' = k) :
    kindEntries k' (removeObj (i, k) s) = kindEntries k' s := by
  rw [kindEntries_removeObj]
  unfold removeObj
  apply List.filter_eq_self.mpr
  intro a ha
  have h2 : a.2 = k' := by
    have hm := List.mem_filter.mp ha
    exact of_decide_eq_true hm.2
  apply decide_eq_true
  intro heq
  rw [heq] at h2
  exact hne h2.symm

lemma inv_updateFog (w : WeatherState) (e : Engine) (h : Inv e) : Inv (updateFog w e) := h

lemma inv_updateLighting (w : WeatherState) (e : Engine) (h : Inv e) :
    Inv (updateLighting w e) := h

lemma inv_setWeather (w : WeatherState) (e : Engine) (h : Inv e) :
    Inv { e with weatherState := some w } := h

lemma inv_updateClouds (r : ℕ → ℚ) (w : WeatherState) (e : Engine) (h : Inv e) :
    Inv (updateClouds r w e) := by
  obtain ⟨h1, h2, h3, h4⟩ := h
  unfold updateClouds
  rcases hc : e.clouds with _ | c
  · replace h1 : kindEntries .clouds e.scene = [] := by rw [hc] at h1; exact h1
    refine ⟨?_, ?_, ?_, ?_⟩
    · show kindEntries .clouds (e.scene ++ [(e.nextId, .clouds)]) = _
      rw [kindEntries_append, h1, kindEntries_single_self]
      rfl
    · show kindEntries .rain (e.scene ++ [(e.nextId, .clouds)]) = _
      rw [kindEntries_append, kindEntries_single_ne _ (by decide), h2, List.append_nil]
    · show kindEntries .windLines (e.scene ++ [(e.nextId, .clouds)]) = _
      rw [kindEntries_append, kindEntries_single_ne _ (by decide), h3, List.append_nil]
    · show kindEntries .windIndicator (e.scene ++ [(e.nextId, .clouds)]) = _
      rw [kindEntries_append, kindEntries_single_ne _ (by decide), h4, List.append_nil]
  · replace h1 : kindEntries .clouds e.scene = [(c.id, .clouds)] := by rw [hc] at h1; exact h1
    refine ⟨?_, ?_, ?_, ?_⟩
    · show kindEntries .clouds (removeObj (c.id, .clouds) e.scene ++ [(e.nextId, .clouds)]) = _
      rw [kindEntries_append, kindEntries_drop_single h1, kindEntries_single_self]
      rfl
    · show kindEntries .rain (removeObj (c.id, .clouds) e.scene ++ [(e.nextId, .clouds)]) = _
      rw [kindEntries_append, kindEntries_single_ne _ (by decide),
        kindEntries_removeObj_ne _ _ (by decide), h2, List.append_nil]
    · show kindEntries .windLines (removeObj (c.id, .clouds) e.scene ++ [(e.nextId, .clouds)]) = _
      rw [kindEntries_append, kindEntries_single_ne _ (by decide),
        kindEntries_removeObj_ne _ _ (by decide), h3, List.append_nil]
    · show kindEntries .windIndicator
          (removeObj (c.id, .clouds) e.scene ++ [(e.nextId, .clouds)]) = _
      rw [kindEntries_append, kindEntries_single_ne _ (by decide),
        kindEntries_removeObj_ne _ _ (by decide), h4, List.append_nil]

lemma inv_rainRemoved (e : Engine) (h : Inv e) : Inv (rainRemoved e) := by
  obtain ⟨h1, h2, h3, h4⟩ := h
  unfold rainRemoved
  rcases hc : e.rainParticles with _ | ri
  · exact ⟨h1, h2, h3, h4⟩
  · replace h2 : kindEntries .rain e.scene = [(ri.id, .rain)] := by rw [hc] at h2; exact h2
    refine ⟨?_, ?_, ?_, ?_⟩
    · show kindEntries .clouds (removeObj (ri.id, .rain) e.scene) = _
      rw [kindEntries_removeObj_ne _ _ (by decide)]
      exact h1
    · show kindEntries .rain (removeObj (ri.id, .rain) e.scene) = _
      rw [kindEntries_drop_single h2]
      rfl
    · show kindEntries .windLines (removeObj (ri.id, .rain) e.scene) = _
      rw [kindEntries_removeObj_ne _ _ (by decide)]
      exact h3
    · show kindEntries .windIndicator (removeObj (ri.id, .rain) e.scene) = _
      rw [kindEntries_removeObj_ne _ _ (by decide)]
      exact h4

lemma inv_updateRain (r : ℕ → ℚ) (w : WeatherState) (e : Engine) (h : Inv e) :
    Inv (updateRain r w e).1 := by
  have hrem := inv_rainRemoved e h
  unfold updateRain
  by_cases hr : isRainy w
  · rw [if_neg (by simp [hr])]
    by_cases hn : rainCountZ w.humidity < 0
    · rw [if_pos hn]
      exact hrem
    · rw [if_neg hn]
      obtain ⟨g1, g2, g3, g4⟩ := hrem
      replace g2 : kindEntries .rain (rainRemoved e).scene = [] := by
        rw [rainRemoved_rainParticles] at g2
        exact g2
      refine ⟨?_, ?_, ?_, ?_⟩
      · show kindEntries .clouds
            ((rainRemoved e).scene ++ [((rainRemoved e).nextId, .rain)]) = _
        rw [kindEntries_append, kindEntries_single_ne _ (by decide), g1, List.append_nil]
      · show kindEntries .rain
            ((rainRemoved e).scene ++ [((rainRemoved e).nextId, .rain)]) = _
        rw [kindEntries_append, g2, kindEntries_single_self]
        rfl
      · show kindEntries .windLines
            ((rainRemoved e).scene ++ [((rainRemoved e).nextId, .rain)]) = _
        rw [kindEntries_append, kindEntries_single_ne _ (by decide), g3, List.append_nil]
      · show kindEntries .windIndicator
            ((rainRemoved e).scene ++ [((rainRemoved e).nextId, .rain)]) = _
        rw [kindEntries_append, kindEntries_single_ne _ (by decide), g4, List.append_nil]
  · rw [if_pos (by simp [hr])]
    exact hrem

lemma inv_windRemoved (e : Engine) (h : Inv e) : Inv (windRemoved e) := by
  obtain ⟨h1, h2, h3, h4⟩ := h
  unfold windRemoved
  rcases hc : e.windLines with _ | wl
  · exact ⟨h1, h2, h3, h4⟩
  · replace h3 : kindEntries .windLines e.scene = [(wl.id, .windLines)] := by
      rw [hc] at h3; exact h3
    refine ⟨?_, ?_, ?_, ?_⟩
    · show kindEntries .clouds (removeObj (wl.id, .windLines) e.scene) = _
      rw [kindEntries_removeObj_ne _ _ (by decide)]
      exact h1
    · show kindEntries .rain (removeObj (wl.id, .windLines) e.scene) = _
      rw [kindEntries_removeObj_ne _ _ (by decide)]
      exact h2
    · show kindEntries .windLines (removeObj (wl.id, .windLines) e.scene) = _
      rw [kindEntries_drop_single h3]
      rfl
    · show kindEntries .windIndicator (removeObj (wl.id, .windLines) e.scene) = _
      rw [kindEntries_removeObj_ne _ _ (by decide)]
      exact h4

lemma inv_updateWind (r : ℕ → ℚ) (w : WeatherState) (e : Engine) (h : Inv e) :
    Inv (updateWind r w e) := by
  have hrem := inv_windRemoved e h
  unfold updateWind
  by_cases hs : w.windSpeed ≤ 3
  · rw [if_pos hs]
    exact hrem
  · rw [if_neg hs]
    obtain ⟨g1, g2, g3, g4⟩ := hrem
    replace g3 : kindEntries .windLines (windRemoved e).scene = [] := by
      rw [windRemoved_windLines] at g3
      exact g3
    refine ⟨?_, ?_, ?_, ?_⟩
    · show kindEntries .clouds
          ((windRemoved e).scene ++ [((windRemoved e).nextId, .windLines)]) = _
      rw [kindEntries_append, kindEntries_single_ne _ (by decide), g1, List.append_nil]
    · show kindEntries .rain
          ((windRemoved e).scene ++ [((windRemoved e).nextId, .windLines)]) = _
      rw [kindEntries_append, kindEntries_single_ne _ (by decide), g2, List.append_nil]
    · show kindEntries .windLines
          ((windRemoved e).scene ++ [((windRemoved e).nextId, .windLines)]) = _
      rw [kindEntries_append, g3, kindEntries_single_self]
      rfl
    · show kindEntries .windIndicator
          ((windRemoved e).scene ++ [((windRemoved e).nextId, .windLines)]) = _
      rw [kindEntries_append, kindEntries_single_ne _ (by decide), g4, List.append_nil]

lemma inv_uis (w : WeatherState) (e : Engine) (h : Inv e) : Inv (updateIndicatorStep w e) := by
  obtain ⟨h1, h2, h3, h4⟩ := h
  unfold updateIndicatorStep createWindDirectionIndicator updateWindDirection
  by_cases hw : 0 < w.windSpeed
  · rw [if_pos hw]
    rcases hc : e.windIndicator with _ | ind
    · replace h4 : kindEntries .windIndicator e.scene = [] := by rw [hc] at h4; exact h4
      refine ⟨?_, ?_, ?_, ?_⟩
      · show kindEntries .clouds (e.scene ++ [(e.nextId, .windIndicator)]) = _
        rw [kindEntries_append, kindEntries_single_ne _ (by decide), h1, List.append_nil]
        rfl
      · show kindEntries .rain (e.scene ++ [(e.nextId, .windIndicator)]) = _
        rw [kindEntries_append, kindEntries_single_ne _ (by decide), h2, List.append_nil]
        rfl
      · show kindEntries .windLines (e.scene ++ [(e.nextId, .windIndicator)]) = _
        rw [kindEntries_append, kindEntries_single_ne _ (by decide), h3, List.append_nil]
        rfl
      · show kindEntries .windIndicator (e.scene ++ [(e.nextId, .windIndicator)]) = _
        rw [kindEntries_append, h4, kindEntries_single_self]
        rfl
    · replace h4 : kindEntries .windIndicator e.scene = [(ind.id, .windIndicator)] := by
        rw [hc] at h4; exact h4
      rw [if_neg (by simp)]
      simp only [hc]
      exact ⟨h1, h2, h3, h4⟩
  · rw [if_neg hw]
    rcases hc : e.windIndicator with _ | ind
    · exact ⟨h1, h2, h3, h4⟩
    · replace h4 : kindEntries .windIndicator e.scene = [(ind.id, .windIndicator)] := by
        rw [hc] at h4; exact h4
      refine ⟨?_, ?_, ?_, ?_⟩
      · show kindEntries .clouds (removeObj (ind.id, .windIndicator) e.scene) = _
        rw [kindEntries_removeObj_ne _ _ (by decide)]
        exact h1
      · show kindEntries .rain (removeObj (ind.id, .windIndicator) e.scene) = _
        rw [kindEntries_removeObj_ne _ _ (by decide)]
        exact h2
      · show kindEntries .windLines (removeObj (ind.id, .windIndicator) e.scene) = _
        rw [kindEntries_removeObj_ne _ _ (by decide)]
        exact h3
      · show kindEntries .windIndicator (removeObj (ind.id, .windIndicator) e.scene) = _
        rw [kindEntries_drop_single h4]
        rfl

lemma inv_updateWeather (r : ℕ → ℚ) (w : WeatherState) (e : Engine) (h : Inv e) :
    Inv (updateWeather r w e).1 := by
  rw [updateWeather_eq]
  have h3 := inv_updateRain r w _ (inv_updateClouds r w _
    (inv_updateLighting w _ (inv_updateFog w _ (inv_setWeather w e h))))
  rcases hb : (updateRain r w (updateClouds r w (updateLighting w
      (updateFog w { e with weatherState := some w })))).2
  · rw [if_neg (by simp)]
    exact inv_uis w _ (inv_updateWind r w _ h3)
  · rw [if_pos rfl]
    exact h3

lemma inv_initEngine : Inv initEngine := by
  refine ⟨rfl, rfl, rfl, rfl⟩

lemma inv_applyUpdates (r : ℕ → ℚ) (ws : List WeatherState) (e : Engine) (h : Inv e) :
    Inv (applyUpdates r ws e) := by
  induction ws generalizing e with
  | nil => exact h
  | cons w ws ih =>
    exact ih _ (inv_updateWeather r w e h)

lemma kindCount_le_one_of_inv (e : Engine) (h : Inv e) (k : EffectKind) :
    kindCount k e.scene ≤ 1 := by
  obtain ⟨h1, h2, h3, h4⟩ := h
  unfold kindCount
  cases k
  · rw [h1]; rcases e.clouds <;> simp [expectEntries]
  · rw [h2]; rcases e.rainParticles <;> simp [expectEntries]
  · rw [h3]; rcases e.windLines <;> simp [expectEntries]
  · rw [h4]; rcases e.windIndicator <;> simp [expectEntries]

/-! ### Helper lemmas: visible summary of a successful update -/

lemma visible_updateWeather (r : ℕ → ℚ) (w : WeatherState) (e : Engine)
    (h : (updateWeather r w e).2 = false) :
    visible (updateWeather r w e).1 = visibleOf w := by
  have hcrash := h
  rw [updateWeather_snd] at hcrash
  rw [updateWeather_fst_of_ok r w e h]
  unfold visible visibleOf
  simp only [Visible.mk.injEq]
  refine ⟨?_, ?_, ?_, ?_, ?_, ?_, ?_, ?_⟩
  · simp
  · simp
  · simp
  · simp
  · simp [mkClouds_length]
  · rw [uis_rainParticles, updateWind_rainParticles, updateRain_fst_rainParticles]
    by_cases hr : isRainy w
    · have hn : ¬ rainCountZ w.humidity < 0 := by
        rw [hr] at hcrash
        simpa using hcrash
      simp [hr, hn, mkRainPositions_length]
    · simp [hr]
  · rw [uis_windLines, updateWind_windLines]
    by_cases hs : w.windSpeed ≤ 3 <;> simp [hs, mkWindSegs_length]
  · rw [uis_windIndicator]
    by_cases hw : 0 < w.windSpeed <;> simp [hw]

/-! ### Helper lemmas: terrain displacement -/

lemma rowBump_eq_spec (f : ℚ → ℚ) (y : ℚ) : rowBump f y = specRowBump f y := by
  unfold rowBump specRowBump rowYPositions
  by_cases h1 : |y - (-10)| < rowWidth <;>
  by_cases h2 : |y - 0| < rowWidth <;>
  by_cases h3 : |y - 10| < rowWidth <;>
  simp only [List.foldl_cons, List.foldl_nil, List.filter_cons, List.filter_nil,
    List.map_cons, List.map_nil, List.sum_cons, List.sum_nil, h1, h2, h3,
    decide_True, decide_False, if_true, if_false, ite_true, ite_false,
    Bool.false_eq_true, Bool.true_eq_false, eq_self_iff_true, not_false_iff] <;>
  ring

/-! ### Claim theorems -/

/-- C1: for every sequence of `updateWeather` calls on a freshly constructed
`WeatherEffects` object, after each call the scene holds at most one live
instance per effect kind — each update removes the previous instance of a
kind before installing the new one.  Every state reached after some call of a
sequence is `applyUpdates` of the corresponding prefix, so quantifying over
the update list covers the state after each call; the fog slot is a single
optional field of the scene, so fog uniqueness holds by construction. -/
theorem updateWeather_at_most_one_instance_per_kind
    (r : ℕ → ℚ) (ws : List WeatherState) (k : EffectKind) :
    kindCount k (applyUpdates r ws initEngine).scene ≤ 1 :=
  kindCount_le_one_of_inv _ (inv_applyUpdates r ws initEngine inv_initEngine) k

/-- C2: after any normally returning `updateWeather` call, a rain particle
instance exists iff the latest condition label contains the substring 'rain'
case-insensitively, and when it exists its particle count equals
`Math.floor(5000 * humidity / 100)`. -/
theorem updateWeather_rain_iff_and_count (r : ℕ → ℚ) (w : WeatherState) (e : Engine)
    (h : (updateWeather r w e).2 = false) :
    (((updateWeather r w e).1).rainParticles.isSome
        = includesStr (toLowerStr w.conditions) rainLit) ∧
    ∀ ri, ((updateWeather r w e).1).rainParticles = some ri →
      (ri.positions.length : ℤ) = ⌊(5000 : ℚ) * (w.humidity / 100)⌋ := by
  rw [updateWeather_fst_of_ok r w e h]
  rw [updateWeather_snd] at h
  rw [uis_rainParticles, updateWind_rainParticles, updateRain_fst_rainParticles]
  by_cases hr : isRainy w
  · have hn : ¬ rainCountZ w.humidity < 0 := by
      rw [hr] at h
      simpa using h
    constructor
    · rw [if_pos ⟨hr, hn⟩]
      exact hr.symm
    · intro ri hri
      rw [if_pos ⟨hr, hn⟩] at hri
      injection hri with h'
      subst h'
      simp only [mkRainPositions_length]
      rw [Int.toNat_of_nonneg (not_lt.mp hn)]
      rfl
  · constructor
    · rw [if_neg (by simp [hr])]
      have hb : isRainy w = false := by
        cases hby : isRainy w
        · rfl
        · exact absurd hby hr
      exact hb.symm
    · intro ri hri
      rw [if_neg (by simp [hr])] at hri
      exact absurd hri (by simp)

/-- Witness for C2 at the spec scenario state (conditions 'Rain', humidity
80): the call returns normally and the theorem applies. -/
theorem updateWeather_rain_iff_and_count_witness :
    (updateWeather (fun _ => 0) ⟨rainLabel, 18, 5, 80, 90⟩ initEngine).2 = false ∧
    ((((updateWeather (fun _ => 0) ⟨rainLabel, 18, 5, 80, 90⟩ initEngine).1).rainParticles.isSome
        = includesStr (toLowerStr rainLabel) rainLit) ∧
      ∀ ri, ((updateWeather (fun _ => 0) ⟨rainLabel, 18, 5, 80, 90⟩
          initEngine).1).rainParticles = some ri →
        (ri.positions.length : ℤ) = ⌊(5000 : ℚ) * ((80 : ℚ) / 100)⌋) :=
  ⟨by rw [updateWeather_snd']; decide,
   updateWeather_rain_iff_and_count (fun _ => 0) ⟨rainLabel, 18, 5, 80, 90⟩ initEngine
     (by rw [updateWeather_snd']; decide)⟩

/-- C3: after any normally returning `updateWeather` call, the wind-direction
indicator exists iff `windSpeed > 0`; while it exists, the degree argument of
the arrow rotation equals `windDirection - 180` (equality of degree values,
hence congruence mod 360 of the resulting angle) and the arrow scale is
`1 + windSpeed / 10` uniformly on all three axes. -/
theorem updateWeather_wind_indicator_spec (r : ℕ → ℚ) (w : WeatherState) (e : Engine)
    (h : (updateWeather r w e).2 = false) :
    (((updateWeather r w e).1).windIndicator.isSome = decide (0 < w.windSpeed)) ∧
    ∀ ind, ((updateWeather r w e).1).windIndicator = some ind →
      ind.rotZdeg = w.windDirection - 180 ∧
      ind.scale = ⟨1 + w.windSpeed / 10, 1 + w.windSpeed / 10, 1 + w.windSpeed / 10⟩ := by
  rw [updateWeather_fst_of_ok r w e h, uis_windIndicator]
  by_cases hw : 0 < w.windSpeed
  · refine ⟨by simp [hw], ?_⟩
    intro ind hind
    rw [if_pos hw] at hind
    injection hind with h'
    subst h'
    exact ⟨rfl, rfl⟩
  · refine ⟨by simp [hw], ?_⟩
    intro ind hind
    rw [if_neg hw] at hind
    exact absurd hind (by simp)

/-- Witness for C3 at conditions 'Clear' with windSpeed 5: the call returns
normally and the theorem applies. -/
theorem updateWeather_wind_indicator_spec_witness :
    (updateWeather (fun _ => 0) ⟨clearLit, 25, 5, 30, 90⟩ initEngine).2 = false ∧
    ((((updateWeather (fun _ => 0) ⟨clearLit, 25, 5, 30, 90⟩
          initEngine).1).windIndicator.isSome = decide ((0 : ℚ) < 5)) ∧
      ∀ ind, ((updateWeather (fun _ => 0) ⟨clearLit, 25, 5, 30, 90⟩
          initEngine).1).windIndicator = some ind →
        ind.rotZdeg = (90 : ℚ) - 180 ∧
        ind.scale = ⟨1 + (5 : ℚ) / 10, 1 + (5 : ℚ) / 10, 1 + (5 : ℚ) / 10⟩) :=
  ⟨by rw [updateWeather_snd']; decide,
   updateWeather_wind_indicator_spec (fun _ => 0) ⟨clearLit, 25, 5, 30, 90⟩ initEngine
     (by rw [updateWeather_snd']; decide)⟩

/-- C4 counterexample: with every texture loading fine and the plant model
failing, `initializeScene` completes as successful — the loading flag drops,
the phase never becomes the failure message, the terrain is built and the
scene simply has zero plants.  The model-load failure is swallowed by the
per-promise catch in `loadPlantModels`, so it does not propagate as a
distinguishable pipeline failure, contrary to the claim. -/
theorem asset_failure_counterexample :
    (initializeScene (fun _ => true) false).loading = false ∧
    (initializeScene (fun _ => true) false).phase ≠ Phase.failedToLoad ∧
    (initializeScene (fun _ => true) false).plantCount = 0 ∧
    (initializeScene (fun _ => true) false).terrainBuilt = true := by decide

/-- C4 amended: a texture failure propagates as a terminal failure (loading
flag frozen, failure phase, no terrain or grass built), but a plant-model
failure is swallowed: the scene completes as successful with an empty plant
field.  This holds whether or not the plant model itself loads alongside a
failing texture. -/
theorem asset_failure_amended (pOk : Bool) :
    ((initializeScene (fun ro => decide (ro ≠ TexRole.grassColor)) pOk).loading = true ∧
      (initializeScene (fun ro => decide (ro ≠ TexRole.grassColor)) pOk).phase
        = Phase.failedToLoad ∧
      (initializeScene (fun ro => decide (ro ≠ TexRole.grassColor)) pOk).terrainBuilt
        = false) ∧
    (initializeScene (fun _ => true) false).loading = false ∧
    (initializeScene (fun _ => true) false).phase = Phase.loadingPlants ∧
    (initializeScene (fun _ => true) false).plantCount = 0 ∧
    (initializeScene (fun _ => true) true).plantCount = 15 := by
  cases pOk <;> decide

/-- C5 counterexample: the soil normal map is a normal-map texture, yet the
post-processing of `loadTextures` tags it sRGB, because the code only exempts
the texture compared by identity to the grass normal map. -/
theorem texture_srgb_counterexample :
    isNormalMap TexRole.soilNormal = true ∧
    (configureTexture TexRole.soilNormal defaultLoadedTexture).colorSpace
      = ColorSpaceTag.srgb := by decide

/-- C5 amended: every loaded texture receives repeating wrap on both axes and
the fixed 4 by 4 tiling repeat; the sRGB tag is applied to every texture
except the grass normal map (which keeps its loaded color space) — in
particular the soil normal map, the roughness maps and the displacement map
are also tagged sRGB. -/
theorem texture_postprocess_amended (role : TexRole) (t : Texture) :
    (configureTexture role t).wrapS = WrapMode.repeatWrapping ∧
    (configureTexture role t).wrapT = WrapMode.repeatWrapping ∧
    (configureTexture role t).repeatX = 4 ∧
    (configureTexture role t).repeatY = 4 ∧
    (configureTexture role t).colorSpace
      = (if role = TexRole.grassNormal then t.colorSpace else ColorSpaceTag.srgb) := by
  unfold configureTexture
  by_cases hr : role = TexRole.grassNormal <;> simp [hr]

/-- C6 counterexample: a malformed update (windSpeed -1, below the documented
range) is not treated as a no-op: applied after a valid update that installed
the wind indicator, it changes the engine state and removes the indicator;
moreover a rain-condition update with humidity -50 throws (the negative
`Float32Array` length), contradicting both the no-crash and the
retain-previous-state parts of the claim. -/
theorem malformed_update_counterexample :
    ((updateWeather (fun _ => 0) ⟨clearLit, 25, 5, 0, 90⟩
        initEngine).1).windIndicator.isSome = true ∧
    ((updateWeather (fun _ => 0) ⟨clearLit, 25, -1, 60, 90⟩
        (updateWeather (fun _ => 0) ⟨clearLit, 25, 5, 0, 90⟩ initEngine).1).1)
      ≠ (updateWeather (fun _ => 0) ⟨clearLit, 25, 5, 0, 90⟩ initEngine).1 ∧
    ((updateWeather (fun _ => 0) ⟨clearLit, 25, -1, 60, 90⟩
        (updateWeather (fun _ => 0) ⟨clearLit, 25, 5, 0, 90⟩ initEngine).1).1).windIndicator
      = none ∧
    (updateWeather (fun _ => 0) ⟨rainLabel, 20, 0, -50, 0⟩ initEngine).2 = true := by
  have hv : (updateWeather (fun _ => 0) ⟨clearLit, 25, 5, 0, 90⟩ initEngine).2 = false := by
    rw [updateWeather_snd']; decide
  have hm : (updateWeather (fun _ => 0) ⟨clearLit, 25, -1, 60, 90⟩
      (updateWeather (fun _ => 0) ⟨clearLit, 25, 5, 0, 90⟩ initEngine).1).2 = false := by
    rw [updateWeather_snd']; decide
  have ha : ((updateWeather (fun _ => 0) ⟨clearLit, 25, 5, 0, 90⟩
      initEngine).1).windIndicator.isSome = true := by
    rw [updateWeather_fst_of_ok _ _ _ hv, uis_windIndicator, if_pos (by decide)]
    rfl
  have hc : ((updateWeather (fun _ => 0) ⟨clearLit, 25, -1, 60, 90⟩
      (updateWeather (fun _ => 0) ⟨clearLit, 25, 5, 0, 90⟩
        initEngine).1).1).windIndicator = none := by
    rw [updateWeather_fst_of_ok _ _ _ hm, uis_windIndicator, if_neg (by decide)]
  refine ⟨ha, ?_, hc, by rw [updateWeather_snd']; decide⟩
  intro hEq
  have h2 := congrArg Engine.windIndicator hEq
  rw [hc] at h2
  rw [← h2] at ha
  simp at ha

/-- C6 amended: `updateWeather` performs no validation.  Any value — in range
or not — is stored wholesale as the new weather state and the effects are
re-derived from it, so the previous effect state is replaced rather than
retained; the call throws exactly when the condition label is rain-like and
the computed particle count `floor(5000 * humidity / 100)` is negative. -/
theorem malformed_update_applied_amended (r : ℕ → ℚ) (w : WeatherState) (e : Engine) :
    ((updateWeather r w e).1).weatherState = some w ∧
    (updateWeather r w e).2
      = (isRainy w && decide (⌊(5000 : ℚ) * (w.humidity / 100)⌋ < 0)) := by
  constructor
  · rw [updateWeather_eq]
    rcases hb : (updateRain r w (updateClouds r w (updateLighting w
        (updateFog w { e with weatherState := some w })))).2
    · rw [if_neg (by simp)]
      simp
    · rw [if_pos rfl]
      simp
  · exact updateWeather_snd r w e

/-- C7: the terrain displacement of `createTerrain` is a pure per-vertex
function of the planar coordinates — each output vertex adds to its height
the sum, over the target rows within the bandwidth, of
`0.3 * exp(-((y - row) / width)^4)` plus the two-octave sinusoidal noise at
(x, y), exactly as the spec states it — so the output list is determined by
the input list alone (no randomness is consumed), and in `createTerrain` the
vertex-normal recomputation step follows the displacement pass. -/
theorem terrain_displacement_pure (f sn cs : ℚ → ℚ) (vs : List Vec3) :
    createTerrainPositions f sn cs vs
        = vs.map (fun v =>
            ⟨v.x, v.y, v.z + (specRowBump f v.y + terrainNoise sn cs v.x v.y)⟩) ∧
    terrainStepPos TerrainStep.displaceVertices
      < terrainStepPos TerrainStep.computeVertexNormals := by
  constructor
  · unfold createTerrainPositions
    have hfun : displaceVertex f sn cs = fun v : Vec3 =>
        (⟨v.x, v.y, v.z + (specRowBump f v.y + terrainNoise sn cs v.x v.y)⟩ : Vec3) := by
      funext v
      unfold displaceVertex displacementAt
      rw [rowBump_eq_spec]
    rw [hfun]
  · decide

/-- C8: `updateWeather` is idempotent on the visible result — applying the
same state twice in succession yields the same visible summary (existence and
parameters of every effect) as applying it once, and creates no duplicate
instances (at most one scene instance per kind afterwards).  Positions drawn
from the random stream are abstracted by the visible summary, as the spec
itself makes cloud and particle placement random. -/
theorem updateWeather_idempotent_visible (r : ℕ → ℚ) (w : WeatherState) (e : Engine)
    (hInv : Inv e) (h : (updateWeather r w e).2 = false) :
    visible (updateWeather r w (updateWeather r w e).1).1
        = visible (updateWeather r w e).1 ∧
    ∀ k, kindCount k ((updateWeather r w (updateWeather r w e).1).1).scene ≤ 1 := by
  have h2 : (updateWeather r w (updateWeather r w e).1).2 = false := by
    rw [updateWeather_snd]
    rw [updateWeather_snd] at h
    exact h
  refine ⟨?_, ?_⟩
  · rw [visible_updateWeather _ _ _ h2, visible_updateWeather _ _ _ h]
  · intro k
    exact kindCount_le_one_of_inv _
      (inv_updateWeather r w _ (inv_updateWeather r w e hInv)) k

/-- Witness for C8 at the spec's clear-weather scenario state applied to a
fresh engine. -/
theorem updateWeather_idempotent_visible_witness :
    Inv initEngine ∧
    (updateWeather (fun _ => 0) ⟨clearLit, 25, 0, 30, 90⟩ initEngine).2 = false ∧
    (visible (updateWeather (fun _ => 0) ⟨clearLit, 25, 0, 30, 90⟩
          (updateWeather (fun _ => 0) ⟨clearLit, 25, 0, 30, 90⟩ initEngine).1).1
        = visible (updateWeather (fun _ => 0) ⟨clearLit, 25, 0, 30, 90⟩ initEngine).1 ∧
      ∀ k, kindCount k ((updateWeather (fun _ => 0) ⟨clearLit, 25, 0, 30, 90⟩
          (updateWeather (fun _ => 0) ⟨clearLit, 25, 0, 30, 90⟩
            initEngine).1).1).scene ≤ 1) :=
  ⟨by decide, by rw [updateWeather_snd']; decide,
   updateWeather_idempotent_visible (fun _ => 0) ⟨clearLit, 25, 0, 30, 90⟩ initEngine
     (by decide) (by rw [updateWeather_snd']; decide)⟩

/-- C9 (code bug): the `useEffect` cleanup of Field.tsx does not cancel the
recurring animation callback — no frame id is stored and
`cancelAnimationFrame` is never called — so after teardown the callback
remains scheduled, and the per-frame step is not a no-op: it re-schedules
itself and renders another frame against the disposed renderer. -/
theorem teardown_keeps_animation_running (s : LoopState) (delta : ℚ) :
    (cleanup s).rafScheduled = s.rafScheduled ∧
    (stepFrame delta (cleanup s)).framesRendered = (cleanup s).framesRendered + 1 ∧
    (stepFrame delta (cleanup s)).rendererDisposed = true ∧
    stepFrame delta (cleanup s) ≠ cleanup s := by
  refine ⟨rfl, rfl, rfl, ?_⟩
  intro hEq
  have h2 := congrArg LoopState.framesRendered hEq
  simp [stepFrame, cleanup] at h2

/-- C10: calling `animate` when no weather state has ever been stored changes
nothing — every per-frame branch is guarded on both the effect handle and the
stored weather state, so the engine (including every particle position and
the random stream index) is returned untouched. -/
theorem animate_noop_without_weather (r : ℕ → ℚ) (delta : ℚ) (e : Engine)
    (h : e.weatherState = none) :
    animate r delta e = e := by
  unfold animate
  rw [h]

/-- Witness for C10 on a freshly constructed engine, before any
`updateWeather` call. -/
theorem animate_noop_without_weather_witness :
    initEngine.weatherState = none ∧
    animate (fun _ => 0) 1 initEngine = initEngine :=
  ⟨rfl, animate_noop_without_weather (fun _ => 0) 1 initEngine rfl⟩

end DT
